import Mathlib

set_option maxRecDepth 4000

/-
Verification of the PEFS_Validator tag-reconciliation engine
(src/core/verifier.py) against its specification.

The engine is embedded shallowly: positioned text fragments are lists of
records, pandas DataFrames become Lean lists, and the per-tag classification
loop of verify_drawings_memory becomes a fold.  The external library scorer
rapidfuzz fuzz.partial_ratio is modelled by fuzzPartialScore below; every
universal theorem is additionally parameterized over an arbitrary scorer so
that it holds for the real library as well.  Python string methods are
modelled structurally over the character list of a string so that all
definitions evaluate inside the kernel.
-/

/-! ## Models of the Python string methods used by the source -/

/-- Model of the Python str.upper method (ASCII case mapping). -/
def upperStr (s : String) : String := ⟨s.data.map Char.toUpper⟩

/-- Model of the Python str.strip method: drop leading and trailing
whitespace. -/
def pyStrip (s : String) : String :=
  ⟨((s.data.dropWhile Char.isWhitespace).reverse.dropWhile Char.isWhitespace).reverse⟩

/-- Model of the Python str.startswith method. -/
def pyStartsWith (s p : String) : Bool := p.data.isPrefixOf s.data

/-- Model of the Python sep.join method on a list of strings. -/
def pyJoin (sep : String) : List String → String
  | [] => ""
  | [w] => w
  | w :: ws => w ++ sep ++ pyJoin sep ws

/-- Helper for pySplit: walk the characters, collecting maximal runs of
non-whitespace characters. -/
def splitWsAux : List Char → List Char → List String
  | [], cur => if cur.isEmpty then [] else [String.mk cur.reverse]
  | c :: cs, cur =>
    if c.isWhitespace then
      if cur.isEmpty then splitWsAux cs []
      else String.mk cur.reverse :: splitWsAux cs []
    else splitWsAux cs (c :: cur)

/-- Model of the Python str.split method with no argument: split on runs of
whitespace, dropping empty pieces. -/
def pySplit (s : String) : List String := splitWsAux s.data []

/-- Model of the Python substring containment test (sub in s). -/
def pyContains (s sub : String) : Bool := s.data.tails.any (fun t => sub.data.isPrefixOf t)

/-! ## Kernel-computable exact rational scores

rapidfuzz returns similarity scores in the real interval 0..100; we model
them as exact rationals.  Rational division in core Lean normalizes through
Nat.gcd, which is defined by well-founded recursion and does not reduce in
the kernel, so mkQ below constructs the normalized fraction directly using a
fuel-based structurally recursive gcd. -/

/-- Euclidean gcd with explicit structural fuel, so that it reduces in the
kernel. -/
def gcdF : Nat → Nat → Nat → Nat
  | 0, _, n => n
  | _ + 1, 0, n => n
  | fuel + 1, m + 1, n => gcdF fuel (n % (m + 1)) (m + 1)

/-- The rational number k / n (with mkQ k 0 = 0), built as an already
normalized fraction so that it evaluates inside the kernel. -/
def mkQ (k n : Nat) : ℚ :=
  if hn : n = 0 then 0
  else
    have hgen : ∀ fuel m j : Nat, m < fuel → gcdF fuel m j = Nat.gcd m j := by
      intro fuel
      induction fuel with
      | zero => intro m j h; omega
      | succ f ih =>
        intro m j h
        match m with
        | 0 => simp [gcdF]
        | m + 1 =>
          rw [gcdF, Nat.gcd_rec]
          exact ih _ _ (Nat.lt_of_lt_of_le (Nat.mod_lt _ (Nat.succ_pos m)) (Nat.lt_succ_iff.mp h))
    have hg : gcdF (k + 1) k n = Nat.gcd k n := hgen _ _ _ (Nat.lt_succ_self k)
    have hgpos : 0 < Nat.gcd k n := Nat.gcd_pos_of_pos_right _ (Nat.pos_of_ne_zero hn)
    ⟨(k / gcdF (k + 1) k n : Nat), n / gcdF (k + 1) k n,
      by
        rw [hg]
        exact Nat.ne_of_gt
          (Nat.div_pos (Nat.le_of_dvd (Nat.pos_of_ne_zero hn) (Nat.gcd_dvd_right k n)) hgpos),
      by
        rw [hg]
        simpa using Nat.coprime_div_gcd_div_gcd (m := k) (n := n) hgpos⟩

/-! ## Model of the external scorer rapidfuzz fuzz.partial_ratio -/

/-- Length of a longest common subsequence, computed row by row so that it
reduces quickly in the kernel.  Helper: one row update of the dynamic
program. -/
def lcsRowGo (a : Char) : List Char → List Nat → Nat → List Nat
  | [], _, _ => []
  | b :: bs, prev, left =>
    match prev with
    | [] => []
    | pdiag :: prest =>
      let c := if a == b then pdiag + 1 else max (prest.headD 0) left
      c :: lcsRowGo a bs prest c

/-- Length of a longest common subsequence of two character lists. -/
def lcsLen (as bs : List Char) : Nat :=
  (as.foldl (fun prev a => 0 :: lcsRowGo a bs prev 0) (List.replicate (bs.length + 1) 0)).getLastD 0

/-- The InDel similarity used by rapidfuzz fuzz.ratio: 100 times
(1 - indelDistance / (len1 + len2)), which equals 200 * lcs / (len1 + len2).
Two empty strings score 100. -/
def indelScore (s1 s2 : List Char) : ℚ :=
  if s1.length + s2.length = 0 then 100
  else mkQ (200 * lcsLen s1 s2) (s1.length + s2.length)

/-- All prefixes of a character list (including the empty one). -/
def charPrefixes : List Char → List (List Char)
  | [] => [[]]
  | c :: cs => [] :: (charPrefixes cs).map (fun p => c :: p)

/-- All contiguous sublists of a character list (with repetitions; the empty
sublist is included and scores 0 against a nonempty string, so repetitions
are harmless under the maximum). -/
def charInfixes : List Char → List (List Char)
  | [] => [[]]
  | c :: cs => charPrefixes (c :: cs) ++ charInfixes cs

/-- Model of the external library scorer rapidfuzz fuzz.partial_ratio: the
best InDel similarity (0 to 100) of the shorter string against the
contiguous substrings of the longer string, i.e. the score of the optimal
local alignment of the shorter string inside the longer one. -/
def fuzzPartialScore (a b : String) : ℚ :=
  let s1 := a.data
  let s2 := b.data
  let sh := if s1.length ≤ s2.length then s1 else s2
  let lo := if s1.length ≤ s2.length then s2 else s1
  if sh.isEmpty then (if lo.isEmpty then 100 else 0)
  else ((charInfixes lo).map (indelScore sh)).foldl (fun acc s => if acc < s then s else acc) 0

/-! ## Data model (section 3 of the spec, src/core/verifier.py) -/

/-- A positioned text fragment extracted from one drawing: one row of the
DataFrame produced by extract_text_positions_opencv. -/
structure Frag where
  page : Nat
  x0 : Int
  y0 : Int
  x1 : Int
  y1 : Int
  text : String
deriving DecidableEq

/-- One row of the DataFrame produced by build_context: a fragment together
with its uppercased text and the uppercased, space-joined text of its
spatial neighbourhood. -/
structure CtxFrag where
  page : Nat
  text : String
  context : String
  x0 : Int
  y0 : Int
  x1 : Int
  y1 : Int
deriving DecidableEq

/-- One audit row of the debug DataFrame built by verify_drawings_memory
(keys: 5-AD Number, Expected RHL, Found RHL, Confidence, Result).  The
source rounds Confidence to one decimal when displaying the row; we keep
the exact score, the rounding being presentational. -/
structure MatchResult where
  tag : String
  expected : String
  found : String
  confidence : ℚ
  result : String
deriving DecidableEq

/-- The summary dictionary emitted by verify_drawings_memory. -/
structure Summary where
  total : Nat
  matched : Nat
  mismatched : Nat
  missing : Nat
  unmapped : Nat
deriving DecidableEq

/-- The mutable state threaded through the per-tag loop of
verify_drawings_memory: the four counters and the accumulated debug rows. -/
structure RunState where
  matched : Nat
  mismatched : Nat
  missing : Nat
  unmapped : Nat
  debug_rows : List MatchResult
deriving DecidableEq

/-! ## The engine (src/core/verifier.py) -/

/-- The context row built by build_context for one fragment: the neighbours
are every fragment on the same page whose origin lies within the radius on
both axes (the fragment itself included), joined in input order. -/
def contextRowOf (df : List Frag) (radius : Int) (tag : Frag) : CtxFrag :=
  let neighbors := df.filter (fun f =>
    f.page == tag.page
      && decide (abs (f.x0 - tag.x0) ≤ radius)
      && decide (abs (f.y0 - tag.y0) ≤ radius))
  { page := tag.page
    text := upperStr tag.text
    context := upperStr (pyJoin " " (neighbors.map (fun f => f.text)))
    x0 := tag.x0
    y0 := tag.y0
    x1 := tag.x1
    y1 := tag.y1 }

/-- build_context of src/core/verifier.py: one context row per fragment, in
input order. -/
def build_context (df : List Frag) (radius : Int) : List CtxFrag :=
  df.map (contextRowOf df radius)

/-- The mapping dictionary of verify_drawings_memory: both columns of every
CSV row stripped and uppercased.  The list keeps the row order; lookups use
dictGet, which returns the last binding of a key (Python dict
comprehension semantics: later duplicate keys overwrite earlier ones). -/
def build_map_dict (rows : List (String × String)) : List (String × String) :=
  rows.map (fun r => (upperStr (pyStrip r.fst), upperStr (pyStrip r.snd)))

/-- Lookup in the mapping dictionary, last-write-wins. -/
def dictGet (d : List (String × String)) (k : String) : Option String :=
  (d.reverse.find? (fun p => p.fst == k)).map (fun p => p.snd)

/-- The accumulating loop inside find_best_context_region: a strictly
greater score replaces the current best, so equal scores keep the first
seen candidate. -/
def findBestLoop (S : String → String → ℚ) (src : String) :
    List CtxFrag → Option CtxFrag → ℚ → Option CtxFrag × ℚ
  | [], best, bestScore => (best, bestScore)
  | c :: cs, best, bestScore =>
    let score := S src c.context
    if bestScore < score then findBestLoop S src cs (some c) score
    else findBestLoop S src cs best bestScore

/-- find_best_context_region of src/core/verifier.py, parameterized over the
scorer S (the source calls rapidfuzz fuzz.partial_ratio, modelled by
fuzzPartialScore).  Returns the best candidate only when its score reaches
the threshold, but always returns the best score. -/
def find_best_context_region (S : String → String → ℚ) (src_context : String)
    (df2_ctx : List CtxFrag) (threshold : ℚ) : Option CtxFrag × ℚ :=
  match findBestLoop S src_context df2_ctx none 0 with
  | (some b, s) => if threshold ≤ s then (some b, s) else (none, s)
  | (none, s) => (none, s)

/-- The classification of one scanned source tag, following the body of the
per-tag loop of verify_drawings_memory (annotation side effects omitted).
The Python truthiness test if expected_rhl sends both an absent key and an
empty mapped target to Unmapped. -/
def classifyTag (S : String → String → ℚ) (map_dict : List (String × String))
    (df2 : List Frag) (df2_ctx : List CtxFrag) (row : CtxFrag) : MatchResult :=
  match dictGet map_dict row.text with
  | none => ⟨row.text, "-", "-", 0, "Unmapped"⟩
  | some e =>
    if e = "" then ⟨row.text, "-", "-", 0, "Unmapped"⟩
    else
      match find_best_context_region S row.context df2_ctx 75 with
      | (some b, score) =>
        if (df2.filter (fun f => f.page == b.page && upperStr f.text == e)).isEmpty = false then
          ⟨row.text, e, e, score, "Matched"⟩
        else if (pySplit b.context).any (fun w => pyStartsWith w "RHL-") then
          ⟨row.text, e, ((pySplit b.context).find? (fun w => pyStartsWith w "RHL-")).getD "-",
            score, "Mismatched"⟩
        else ⟨row.text, e, "-", score, "Missing"⟩
      | (none, score) => ⟨row.text, e, "-", score, "Missing"⟩

/-- One iteration of the per-tag loop of verify_drawings_memory: the same
branches as classifyTag, additionally bumping the counter of the branch
taken and appending the audit row. -/
def verifyStep (S : String → String → ℚ) (map_dict : List (String × String))
    (df2 : List Frag) (df2_ctx : List CtxFrag) (st : RunState) (row : CtxFrag) : RunState :=
  match dictGet map_dict row.text with
  | none =>
    { st with unmapped := st.unmapped + 1
              debug_rows := st.debug_rows ++ [⟨row.text, "-", "-", 0, "Unmapped"⟩] }
  | some e =>
    if e = "" then
      { st with unmapped := st.unmapped + 1
                debug_rows := st.debug_rows ++ [⟨row.text, "-", "-", 0, "Unmapped"⟩] }
    else
      match find_best_context_region S row.context df2_ctx 75 with
      | (some b, score) =>
        if (df2.filter (fun f => f.page == b.page && upperStr f.text == e)).isEmpty = false then
          { st with matched := st.matched + 1
                    debug_rows := st.debug_rows ++ [⟨row.text, e, e, score, "Matched"⟩] }
        else if (pySplit b.context).any (fun w => pyStartsWith w "RHL-") then
          { st with mismatched := st.mismatched + 1
                    debug_rows := st.debug_rows ++
                      [⟨row.text, e,
                        ((pySplit b.context).find? (fun w => pyStartsWith w "RHL-")).getD "-",
                        score, "Mismatched"⟩] }
        else
          { st with missing := st.missing + 1
                    debug_rows := st.debug_rows ++ [⟨row.text, e, "-", score, "Missing"⟩] }
      | (none, score) =>
        { st with missing := st.missing + 1
                  debug_rows := st.debug_rows ++ [⟨row.text, e, "-", score, "Missing"⟩] }

/-- verify_drawings_memory of src/core/verifier.py (OCR extraction, PDF
annotation and progress callbacks are external collaborators and omitted;
the fragment lists df1 and df2 are its inputs here).  When drawing 1 yields
no fragments the contexts DataFrame built from an empty list has no
columns, so the pandas column selection df1_ctx of text raises KeyError;
this is modelled by the error branch. -/
def verify_drawings_memory (S : String → String → ℚ) (map_rows : List (String × String))
    (df1 df2 : List Frag) (scanPfx : String) : Except String (Summary × List MatchResult) :=
  let df1_ctx := build_context df1 250
  let df2_ctx := build_context df2 250
  let map_dict := build_map_dict map_rows
  if df1_ctx.isEmpty then Except.error "KeyError: text"
  else
    let df1_targets := df1_ctx.filter (fun r => pyStartsWith r.text scanPfx)
    let final := df1_targets.foldl (verifyStep S map_dict df2 df2_ctx) ⟨0, 0, 0, 0, []⟩
    Except.ok
      (⟨df1_targets.length, final.matched, final.mismatched, final.missing, final.unmapped⟩,
        final.debug_rows)

/-- The targets of the scan: the context rows of drawing 1 whose (uppercased)
text starts with the configured scan prefix — the df1_targets DataFrame of
verify_drawings_memory. -/
def scanTargets (df1 : List Frag) (scanPfx : String) : List CtxFrag :=
  (build_context df1 250).filter (fun r => pyStartsWith r.text scanPfx)

/-- Folding one audit row into the run state: bump the counter named by the
result of the row and append the row.  verifyStep is proved equal to this
applied to classifyTag. -/
def addResult (st : RunState) (r : MatchResult) : RunState :=
  { matched := st.matched + (if r.result = "Matched" then 1 else 0)
    mismatched := st.mismatched + (if r.result = "Mismatched" then 1 else 0)
    missing := st.missing + (if r.result = "Missing" then 1 else 0)
    unmapped := st.unmapped + (if r.result = "Unmapped" then 1 else 0)
    debug_rows := st.debug_rows ++ [r] }

/-- Modelled from the spec: the aligned-coordinate lookup of section 4.4
(with the identity alignment transform), which the spec says is attempted
first — drawing-2 fragments on the same page within tolerance of the
source bbox origin carrying the expected target text.  This step is absent
from src/core/verifier.py; the definition exists only to compare the spec
against the code. -/
def coordLookupSucceeds (df2 : List Frag) (page : Nat) (x0 y0 : Int) (tol : Int)
    (expected : String) : Bool :=
  df2.any (fun f =>
    f.page == page
      && decide (abs (f.x0 - x0) ≤ tol)
      && decide (abs (f.y0 - y0) ≤ tol)
      && upperStr f.text == expected)

/-! ## Concrete inputs used by witnesses and counterexamples -/

/-- A drawing-1 tag fragment used in concrete examples. -/
def exTag : Frag := ⟨1, 0, 0, 40, 10, "5-AD"⟩

/-- A drawing-1 neighbour word used in the order-sensitivity example. -/
def exWord : Frag := ⟨1, 10, 0, 60, 10, "CD"⟩

/-- Drawing 2 of the order-sensitivity example: the mapped target AB next to
the word CD, giving both fragments the context AB CD. -/
def exD2order : List Frag := [⟨1, 0, 0, 20, 10, "AB"⟩, ⟨1, 10, 0, 40, 10, "CD"⟩]

/-- Mapping rows sending the example tag to AB. -/
def exMapAB : List (String × String) := [("5-AD", "AB")]

/-- Mapping rows sending the example tag to Z. -/
def exMapZ : List (String × String) := [("5-AD", "Z")]

/-- Drawing 2 holding the expected target Z at exactly the coordinates of the
source tag of exD1coord (so a coordinate lookup with any tolerance would
succeed). -/
def exD2coord : List Frag := [⟨1, 100, 100, 150, 112, "Z"⟩]

/-- Drawing 1 of the coordinate example: one tag at the same origin as the
drawing-2 target. -/
def exD1coord : List Frag := [⟨1, 100, 100, 140, 110, "5-AD"⟩]

/-- Drawing 2 of the substring example: the tag text itself plus a word BX
whose context contains the expected target B as a substring, while no
fragment has text exactly B. -/
def exD2sub : List Frag := [⟨1, 0, 0, 40, 10, "5-AD"⟩, ⟨1, 10, 0, 60, 10, "BX"⟩]

/-- Mapping rows sending the example tag to B. -/
def exMapB : List (String × String) := [("5-AD", "B")]

/-- Drawing 2 whose only context BC shares no character with the source
context, giving a best fuzzy score of 0. -/
def exD2zero : List Frag := [⟨1, 0, 0, 20, 10, "BC"⟩]

/-! ## Supporting lemmas about the engine -/

/-- One loop iteration equals classifying the tag and folding the audit row
into the state: the branch structure of verifyStep and classifyTag agree. -/
theorem verifyStep_eq (S : String → String → ℚ) (map_dict : List (String × String))
    (df2 : List Frag) (df2_ctx : List CtxFrag) (st : RunState) (row : CtxFrag) :
    verifyStep S map_dict df2 df2_ctx st row =
      addResult st (classifyTag S map_dict df2 df2_ctx row) := by
  unfold verifyStep classifyTag
  rcases h : dictGet map_dict row.text with _ | e
  · simp [addResult]
  · by_cases he : e = ""
    · simp [he, addResult]
    · simp only [he, if_false, ite_false]
      rcases hb : find_best_context_region S row.context df2_ctx 75 with ⟨_ | b, score⟩
      · simp [addResult]
      · by_cases h1 :
          (df2.filter (fun f => f.page == b.page && upperStr f.text == e)).isEmpty = false
        · simp [h1, addResult]
        · by_cases h2 : (pySplit b.context).any (fun w => pyStartsWith w "RHL-")
          · simp [h1, h2, addResult]
          · simp [h1, h2, addResult]

/-- Every classification result is one of the four category strings. -/
theorem classifyTag_result_cases (S : String → String → ℚ)
    (map_dict : List (String × String)) (df2 : List Frag) (df2_ctx : List CtxFrag)
    (row : CtxFrag) :
    (classifyTag S map_dict df2 df2_ctx row).result = "Matched" ∨
      (classifyTag S map_dict df2 df2_ctx row).result = "Mismatched" ∨
      (classifyTag S map_dict df2 df2_ctx row).result = "Missing" ∨
      (classifyTag S map_dict df2 df2_ctx row).result = "Unmapped" := by
  unfold classifyTag
  rcases h : dictGet map_dict row.text with _ | e
  · simp
  · by_cases he : e = ""
    · simp [he]
    · simp only [he, if_false, ite_false]
      rcases hb : find_best_context_region S row.context df2_ctx 75 with ⟨_ | b, score⟩
      · simp
      · by_cases h1 :
          (df2.filter (fun f => f.page == b.page && upperStr f.text == e)).isEmpty = false
        · simp [h1]
        · by_cases h2 : (pySplit b.context).any (fun w => pyStartsWith w "RHL-")
          · simp [h1, h2]
          · simp [h1, h2]

/-- The audit row of a tag always carries that tag. -/
theorem classifyTag_tag (S : String → String → ℚ) (map_dict : List (String × String))
    (df2 : List Frag) (df2_ctx : List CtxFrag) (row : CtxFrag) :
    (classifyTag S map_dict df2 df2_ctx row).tag = row.text := by
  unfold classifyTag
  rcases h : dictGet map_dict row.text with _ | e
  · simp
  · by_cases he : e = ""
    · simp [he]
    · simp only [he, if_false, ite_false]
      rcases hb : find_best_context_region S row.context df2_ctx 75 with ⟨_ | b, score⟩
      · simp
      · by_cases h1 :
          (df2.filter (fun f => f.page == b.page && upperStr f.text == e)).isEmpty = false
        · simp [h1]
        · by_cases h2 : (pySplit b.context).any (fun w => pyStartsWith w "RHL-")
          · simp [h1, h2]
          · simp [h1, h2]

/-- Unfolded form of the per-tag fold: final counters are the category counts
of the classified rows, and the audit list is the classification of every
target in order. -/
theorem foldl_verifyStep (S : String → String → ℚ) (map_dict : List (String × String))
    (df2 : List Frag) (df2_ctx : List CtxFrag) (l : List CtxFrag) (st : RunState) :
    l.foldl (verifyStep S map_dict df2 df2_ctx) st =
      { matched := st.matched + (l.map (classifyTag S map_dict df2 df2_ctx)).countP
          (fun r => decide (r.result = "Matched"))
        mismatched := st.mismatched + (l.map (classifyTag S map_dict df2 df2_ctx)).countP
          (fun r => decide (r.result = "Mismatched"))
        missing := st.missing + (l.map (classifyTag S map_dict df2 df2_ctx)).countP
          (fun r => decide (r.result = "Missing"))
        unmapped := st.unmapped + (l.map (classifyTag S map_dict df2 df2_ctx)).countP
          (fun r => decide (r.result = "Unmapped"))
        debug_rows := st.debug_rows ++ l.map (classifyTag S map_dict df2 df2_ctx) } := by
  induction l generalizing st with
  | nil => simp
  | cons a l ih =>
    rw [List.foldl_cons, verifyStep_eq, ih]
    simp only [addResult, List.map_cons, List.countP_cons, decide_eq_true_eq,
      RunState.mk.injEq]
    refine ⟨by omega, by omega, by omega, by omega, ?_⟩
    simp

/-- Any list of audit rows whose results all lie among the four category
strings has total category count equal to its length. -/
theorem countFour (l : List MatchResult)
    (h : ∀ r ∈ l, r.result = "Matched" ∨ r.result = "Mismatched" ∨
      r.result = "Missing" ∨ r.result = "Unmapped") :
    l.countP (fun r => decide (r.result = "Matched")) +
      l.countP (fun r => decide (r.result = "Mismatched")) +
      l.countP (fun r => decide (r.result = "Missing")) +
      l.countP (fun r => decide (r.result = "Unmapped")) = l.length := by
  induction l with
  | nil => simp
  | cons a l ih =>
    simp only [List.countP_cons, List.length_cons]
    have ha := h a (by simp)
    have hih := ih (fun r hr => h r (by simp [hr]))
    rcases ha with h1 | h1 | h1 | h1 <;> simp [h1] <;> omega

/-- A permutation preserves emptiness. -/
theorem perm_isEmpty {α : Type} {l1 l2 : List α} (h : l1.Perm l2) :
    l1.isEmpty = l2.isEmpty := by
  cases l1 with
  | nil =>
    rw [List.nil_perm] at h
    rw [h]
  | cons a t =>
    cases l2 with
    | nil => exact absurd (List.perm_nil.mp h) (by simp)
    | cons b u => rfl

/-- The successful run, in closed form: the summary counts the classified
targets by category and the audit list classifies every target in order. -/
theorem verify_ok_eq (S : String → String → ℚ) (map_rows : List (String × String))
    (df1 df2 : List Frag) (scanPfx : String) (hne : df1 ≠ []) :
    verify_drawings_memory S map_rows df1 df2 scanPfx =
      Except.ok
        (⟨(scanTargets df1 scanPfx).length,
          ((scanTargets df1 scanPfx).map
              (classifyTag S (build_map_dict map_rows) df2 (build_context df2 250))).countP
            (fun r => decide (r.result = "Matched")),
          ((scanTargets df1 scanPfx).map
              (classifyTag S (build_map_dict map_rows) df2 (build_context df2 250))).countP
            (fun r => decide (r.result = "Mismatched")),
          ((scanTargets df1 scanPfx).map
              (classifyTag S (build_map_dict map_rows) df2 (build_context df2 250))).countP
            (fun r => decide (r.result = "Missing")),
          ((scanTargets df1 scanPfx).map
              (classifyTag S (build_map_dict map_rows) df2 (build_context df2 250))).countP
            (fun r => decide (r.result = "Unmapped"))⟩,
          (scanTargets df1 scanPfx).map
            (classifyTag S (build_map_dict map_rows) df2 (build_context df2 250))) := by
  have h1 : (build_context df1 250).isEmpty = false := by
    cases df1 with
    | nil => exact absurd rfl hne
    | cons a l => rfl
  simp only [verify_drawings_memory, scanTargets, h1, Bool.false_eq_true, if_false,
    foldl_verifyStep]
  simp

/-! ## Claims -/

/-- C1: for every run of verify_drawings_memory that emits a Summary, the
summary satisfies Matched + Mismatched + Missing + Unmapped = Total Tags
Found, and Total Tags Found is the number of scanned source fragments whose
(uppercased) text starts with the scan prefix. -/
theorem C1_summary_invariant (S : String → String → ℚ) (map_rows : List (String × String))
    (df1 df2 : List Frag) (scanPfx : String) (s : Summary) (rows : List MatchResult)
    (h : verify_drawings_memory S map_rows df1 df2 scanPfx = Except.ok (s, rows)) :
    s.matched + s.mismatched + s.missing + s.unmapped = s.total ∧
      s.total = df1.countP (fun f => pyStartsWith (upperStr f.text) scanPfx) := by
  have hne : df1 ≠ [] := by
    intro h0
    subst h0
    exact Except.noConfusion h
  rw [verify_ok_eq S map_rows df1 df2 scanPfx hne] at h
  obtain ⟨hs, hrows⟩ := Prod.mk.injEq .. ▸ Except.ok.inj h
  subst hs
  constructor
  · have hall : ∀ r ∈ (scanTargets df1 scanPfx).map
        (classifyTag S (build_map_dict map_rows) df2 (build_context df2 250)),
        r.result = "Matched" ∨ r.result = "Mismatched" ∨ r.result = "Missing" ∨
          r.result = "Unmapped" := by
      intro r hr
      obtain ⟨row, hrow, hcl⟩ := List.mem_map.mp hr
      exact hcl ▸ classifyTag_result_cases S (build_map_dict map_rows) df2
        (build_context df2 250) row
    have hcount := countFour _ hall
    simpa [List.length_map] using hcount
  · show (scanTargets df1 scanPfx).length = _
    rw [scanTargets, ← List.countP_eq_length_filter, build_context, List.countP_map]
    rfl

/-- C3: a scanned source tag whose text is absent from the domain of the
mapping dictionary is always classified Unmapped with confidence 0,
whatever drawing 2 contains: every audit row of every successful run whose
tag is not a key of the mapping is the fixed Unmapped row. -/
theorem C3_absent_tag_unmapped (S : String → String → ℚ)
    (map_rows : List (String × String)) (df1 df2 : List Frag) (scanPfx : String)
    (s : Summary) (rows : List MatchResult) (r : MatchResult)
    (h : verify_drawings_memory S map_rows df1 df2 scanPfx = Except.ok (s, rows))
    (hr : r ∈ rows) (habs : dictGet (build_map_dict map_rows) r.tag = none) :
    r.result = "Unmapped" ∧ r.confidence = 0 := by
  have hne : df1 ≠ [] := by
    intro h0
    subst h0
    exact Except.noConfusion h
  rw [verify_ok_eq S map_rows df1 df2 scanPfx hne] at h
  obtain ⟨hs, hrows⟩ := Prod.mk.injEq .. ▸ Except.ok.inj h
  subst hrows
  obtain ⟨row, hrow, hcl⟩ := List.mem_map.mp hr
  have htag : r.tag = row.text := hcl ▸ classifyTag_tag S _ df2 _ row
  rw [htag] at habs
  have : classifyTag S (build_map_dict map_rows) df2 (build_context df2 250) row =
      ⟨row.text, "-", "-", 0, "Unmapped"⟩ := by
    unfold classifyTag
    rw [habs]
  rw [← hcl, this]
  exact ⟨rfl, rfl⟩

/-- C7: the claim says a document with zero extracted fragments is not an
error, but when drawing 1 yields no fragments the contexts DataFrame built
from the empty list has no columns and the pandas column selection raises
KeyError — the run aborts instead of emitting an all-zero summary. -/
theorem C7_empty_drawing1_raises (S : String → String → ℚ)
    (map_rows : List (String × String)) (df2 : List Frag) (scanPfx : String) :
    verify_drawings_memory S map_rows [] df2 scanPfx = Except.error "KeyError: text" := rfl

/-- C9: a scanned source tag present in the mapping table whose mapped
target normalizes to the empty string is classified Unmapped with
confidence 0 — the truthiness test on the looked-up value conflates an
empty mapped target with an absent key. -/
theorem C9_empty_target_unmapped (S : String → String → ℚ)
    (map_dict : List (String × String)) (df2 : List Frag) (df2_ctx : List CtxFrag)
    (row : CtxFrag) (h : dictGet map_dict row.text = some "") :
    classifyTag S map_dict df2 df2_ctx row = ⟨row.text, "-", "-", 0, "Unmapped"⟩ := by
  unfold classifyTag
  rw [h]
  simp

/-- Witness for C1 at a concrete input: one mapped tag against an empty
drawing 2 yields a summary 1 = 0 + 0 + 1 + 0. -/
theorem C1_summary_invariant_witness :
    (0 : Nat) + 0 + 1 + 0 = 1 ∧
      1 = List.countP (fun f => pyStartsWith (upperStr f.text) "5-AD") [exTag] :=
  C1_summary_invariant fuzzPartialScore exMapZ [exTag] [] "5-AD" ⟨1, 0, 0, 1, 0⟩
    [⟨"5-AD", "Z", "-", 0, "Missing"⟩] (by rfl)

/-- Witness for C3 at a concrete input: with an empty mapping table the one
scanned tag is Unmapped with confidence 0. -/
theorem C3_absent_tag_unmapped_witness :
    (⟨"5-AD", "-", "-", 0, "Unmapped"⟩ : MatchResult).result = "Unmapped" ∧
      (⟨"5-AD", "-", "-", 0, "Unmapped"⟩ : MatchResult).confidence = 0 :=
  C3_absent_tag_unmapped fuzzPartialScore [] [exTag] [] "5-AD" ⟨1, 0, 0, 0, 1⟩
    [⟨"5-AD", "-", "-", 0, "Unmapped"⟩] ⟨"5-AD", "-", "-", 0, "Unmapped"⟩
    (by rfl) (by simp) (by rfl)

/-- Witness for C9 at a concrete input: a mapping row whose target cell is
whitespace only sends its source tag to Unmapped. -/
theorem C9_empty_target_unmapped_witness :
    classifyTag fuzzPartialScore (build_map_dict [("5-AD", "   ")]) [] []
        ⟨1, "5-AD", "5-AD", 0, 0, 40, 10⟩ =
      ⟨"5-AD", "-", "-", 0, "Unmapped"⟩ :=
  C9_empty_target_unmapped fuzzPartialScore (build_map_dict [("5-AD", "   ")]) [] []
    ⟨1, "5-AD", "5-AD", 0, 0, 40, 10⟩ (by rfl)

/-- C2 counterexample: drawing 2 carries the expected target at exactly the
coordinates of the source tag, so the aligned-coordinate lookup described by
the spec succeeds (any tolerance, here 5), yet the engine classifies the tag
Missing — no coordinate lookup is attempted, the fuzzy context score alone
decides. -/
theorem C2_counterexample :
    coordLookupSucceeds exD2coord 1 100 100 5 "Z" = true ∧
      (verify_drawings_memory fuzzPartialScore exMapZ exD1coord exD2coord "5-AD").toOption.map
        (fun out => out.2.map (fun r => r.result)) = some ["Missing"] :=
  ⟨by decide, by decide⟩

/-- C2 amended: the matcher never performs a coordinate-based lookup: the
classification of a scanned tag is invariant under arbitrary changes to its
page and bounding box, depending only on its text and context fields, and
for mapped tags the fuzzy context match alone decides. -/
theorem C2_amended_no_coordinate_lookup (S : String → String → ℚ)
    (map_dict : List (String × String)) (df2 : List Frag) (df2_ctx : List CtxFrag)
    (row : CtxFrag) (p : Nat) (a b c d : Int) :
    classifyTag S map_dict df2 df2_ctx ⟨p, row.text, row.context, a, b, c, d⟩ =
      classifyTag S map_dict df2 df2_ctx row := rfl

/-- C4 counterexample: the best context region reaches the threshold and its
context string contains the expected target B as a substring, yet the tag is
classified Missing (not Matched): the code tests for a whole drawing-2
fragment on the best page whose text equals the expected target, not for
substring containment in the context. -/
theorem C4_counterexample :
    (find_best_context_region fuzzPartialScore "5-AD" (build_context exD2sub 250) 75).1 =
        some ⟨1, "5-AD", "5-AD BX", 0, 0, 40, 10⟩ ∧
      pyContains "5-AD BX" "B" = true ∧
      (verify_drawings_memory fuzzPartialScore exMapB [exTag] exD2sub "5-AD").toOption.map
        (fun out => out.2.map (fun r => r.result)) = some ["Missing"] :=
  ⟨by decide, by decide, by decide⟩

/-- C4 amended: when the mapped tag has a best candidate region meeting the
threshold, the classification is Matched if and only if some drawing-2
fragment on the best candidate page has uppercased text exactly equal to
the expected target. -/
theorem C4_amended_matched_iff_page_fragment (S : String → String → ℚ)
    (map_dict : List (String × String)) (df2 : List Frag) (df2_ctx : List CtxFrag)
    (row : CtxFrag) (e : String) (b : CtxFrag) (score : ℚ)
    (he : dictGet map_dict row.text = some e) (hne : e ≠ "")
    (hb : find_best_context_region S row.context df2_ctx 75 = (some b, score)) :
    ((classifyTag S map_dict df2 df2_ctx row).result = "Matched" ↔
      ∃ f ∈ df2, f.page = b.page ∧ upperStr f.text = e) := by
  have hiff : ((df2.filter (fun f => f.page == b.page && upperStr f.text == e)).isEmpty
      = false) ↔ ∃ f ∈ df2, f.page = b.page ∧ upperStr f.text = e := by
    rw [List.isEmpty_eq_false, ne_eq, List.filter_eq_nil_iff]
    push_neg
    simp
  unfold classifyTag
  rw [he]
  simp only [hne, if_neg, ite_false, hb]
  by_cases h1 : (df2.filter (fun f => f.page == b.page && upperStr f.text == e)).isEmpty
      = false
  · rw [if_pos h1]
    exact iff_of_true rfl (hiff.mp h1)
  · rw [if_neg h1]
    have hno : ¬ ∃ f ∈ df2, f.page = b.page ∧ upperStr f.text = e := fun hc =>
      h1 (hiff.mpr hc)
    by_cases h2 : ((pySplit b.context).any (fun w => pyStartsWith w "RHL-")) = true
    · rw [if_pos h2]
      exact iff_of_false (by simp) hno
    · rw [if_neg h2]
      exact iff_of_false (by simp) hno

/-- Witness for C4 amended at a concrete input: the best region is the AB
page-1 region with score 80, and the classification is Matched exactly
because exD2order carries a fragment AB on page 1. -/
theorem C4_amended_matched_iff_page_fragment_witness :
    ((classifyTag fuzzPartialScore (build_map_dict exMapAB) exD2order
        (build_context exD2order 250) ⟨1, "5-AD", "5-AD CD", 0, 0, 40, 10⟩).result = "Matched" ↔
      ∃ f ∈ exD2order, f.page = (⟨1, "AB", "AB CD", 0, 0, 20, 10⟩ : CtxFrag).page ∧
        upperStr f.text = "AB") :=
  C4_amended_matched_iff_page_fragment fuzzPartialScore (build_map_dict exMapAB) exD2order
    (build_context exD2order 250) ⟨1, "5-AD", "5-AD CD", 0, 0, 40, 10⟩ "AB"
    ⟨1, "AB", "AB CD", 0, 0, 20, 10⟩ 80 (by rfl) (by decide) (by decide)

/-- C5 counterexample: permuting the drawing-1 fragment list changes the
join order of the context strings, and with it the fuzzy score and the
classification of the same tag: Matched in one order, Missing in the
other. -/
theorem C5_counterexample :
    List.Perm [exTag, exWord] [exWord, exTag] ∧
      (verify_drawings_memory fuzzPartialScore exMapAB [exTag, exWord] exD2order
          "5-AD").toOption.map (fun out => out.2.map (fun r => r.result)) =
        some ["Matched"] ∧
      (verify_drawings_memory fuzzPartialScore exMapAB [exWord, exTag] exD2order
          "5-AD").toOption.map (fun out => out.2.map (fun r => r.result)) =
        some ["Missing"] :=
  ⟨List.Perm.swap exWord exTag [], by decide, by decide⟩

/-- C5 amended: order independence holds only for the raw drawing-2
collection: classification is invariant under permutations of the raw
drawing-2 fragment list when the derived context rows are unchanged,
because the raw list enters classification solely through a page-level
membership test. -/
theorem C5_amended_df2_order_irrelevant (S : String → String → ℚ)
    (map_dict : List (String × String)) (df2 df2b : List Frag) (df2_ctx : List CtxFrag)
    (row : CtxFrag) (h : df2.Perm df2b) :
    classifyTag S map_dict df2 df2_ctx row = classifyTag S map_dict df2b df2_ctx row := by
  unfold classifyTag
  rcases hd : dictGet map_dict row.text with _ | e
  · rfl
  · by_cases he : e = ""
    · simp [he]
    · simp only [he, ite_false, if_neg]
      rcases hb : find_best_context_region S row.context df2_ctx 75 with ⟨_ | b, score⟩
      · simp only [hb]
      · simp only [hb]
        have hf : (df2.filter (fun f => f.page == b.page && upperStr f.text == e)).isEmpty =
            (df2b.filter (fun f => f.page == b.page && upperStr f.text == e)).isEmpty :=
          perm_isEmpty (List.Perm.filter _ h)
        rw [hf]

/-- Witness for C5 amended at a concrete input: swapping the two drawing-2
fragments leaves the classification of the example tag unchanged. -/
theorem C5_amended_df2_order_irrelevant_witness :
    classifyTag fuzzPartialScore (build_map_dict exMapAB)
        [⟨1, 0, 0, 20, 10, "AB"⟩, ⟨1, 10, 0, 40, 10, "CD"⟩]
        (build_context exD2order 250) ⟨1, "5-AD", "5-AD CD", 0, 0, 40, 10⟩ =
      classifyTag fuzzPartialScore (build_map_dict exMapAB)
        [⟨1, 10, 0, 40, 10, "CD"⟩, ⟨1, 0, 0, 20, 10, "AB"⟩]
        (build_context exD2order 250) ⟨1, "5-AD", "5-AD CD", 0, 0, 40, 10⟩ :=
  C5_amended_df2_order_irrelevant fuzzPartialScore (build_map_dict exMapAB)
    [⟨1, 0, 0, 20, 10, "AB"⟩, ⟨1, 10, 0, 40, 10, "CD"⟩]
    [⟨1, 10, 0, 40, 10, "CD"⟩, ⟨1, 0, 0, 20, 10, "AB"⟩]
    (build_context exD2order 250) ⟨1, "5-AD", "5-AD CD", 0, 0, 40, 10⟩
    (List.Perm.swap (⟨1, 10, 0, 40, 10, "CD"⟩ : Frag) (⟨1, 0, 0, 20, 10, "AB"⟩ : Frag) [])

/-- C6 counterexample: with radius 0, two same-page fragments sharing the
same origin land in each other's neighbourhood, so each context string is
the join of both texts, not the own text only. -/
theorem C6_counterexample :
    (build_context [⟨1, 0, 0, 5, 5, "ab"⟩, ⟨1, 0, 0, 3, 3, "cd"⟩] 0).map
        (fun c => c.context) = ["AB CD", "AB CD"] ∧
      ("AB CD" : String) ≠ upperStr "ab" :=
  ⟨by decide, by decide⟩

/-- C6 amended: with radius 0 the neighbourhood of a fragment is every
same-page fragment sharing its exact origin; when the fragment is the only
such entry, its context string reduces to its own uppercased text. -/
theorem C6_amended_radius_zero (df : List Frag) (f : Frag) (hf : f ∈ df)
    (h : df.filter (fun g =>
        g.page == f.page && decide (abs (g.x0 - f.x0) ≤ 0) && decide (abs (g.y0 - f.y0) ≤ 0))
      = [f]) :
    contextRowOf df 0 f ∈ build_context df 0 ∧
      (contextRowOf df 0 f).context = upperStr f.text := by
  constructor
  · exact List.mem_map_of_mem _ hf
  · unfold contextRowOf
    rw [h]
    rfl

/-- Witness for C6 amended at a concrete input: a single fragment keeps its
own uppercased text as its radius-0 context. -/
theorem C6_amended_radius_zero_witness :
    contextRowOf [⟨1, 0, 0, 5, 5, "ab"⟩] 0 ⟨1, 0, 0, 5, 5, "ab"⟩ ∈
        build_context [⟨1, 0, 0, 5, 5, "ab"⟩] 0 ∧
      (contextRowOf [⟨1, 0, 0, 5, 5, "ab"⟩] 0 ⟨1, 0, 0, 5, 5, "ab"⟩).context =
        upperStr "ab" :=
  C6_amended_radius_zero [⟨1, 0, 0, 5, 5, "ab"⟩] ⟨1, 0, 0, 5, 5, "ab"⟩ (by decide) (by decide)

/-- C8: a mapped scanned tag whose best fuzzy score over all drawing-2
context regions stays below the threshold 75 is classified Missing, and
every scanned source tag yields exactly one audit row: the audit list of a
successful run is the classification of each target, in order, with one
entry per target. -/
theorem C8_below_threshold_missing_audit_complete (S : String → String → ℚ)
    (map_rows : List (String × String)) (df1 df2 : List Frag) (scanPfx : String)
    (s : Summary) (rows : List MatchResult)
    (h : verify_drawings_memory S map_rows df1 df2 scanPfx = Except.ok (s, rows)) :
    rows = (scanTargets df1 scanPfx).map
        (classifyTag S (build_map_dict map_rows) df2 (build_context df2 250)) ∧
      rows.length = s.total ∧
      ∀ row ∈ scanTargets df1 scanPfx, ∀ e,
        dictGet (build_map_dict map_rows) row.text = some e → e ≠ "" →
        (findBestLoop S row.context (build_context df2 250) none 0).2 < 75 →
        (classifyTag S (build_map_dict map_rows) df2 (build_context df2 250) row).result
          = "Missing" := by
  have hne : df1 ≠ [] := by
    intro h0
    subst h0
    exact Except.noConfusion h
  rw [verify_ok_eq S map_rows df1 df2 scanPfx hne] at h
  obtain ⟨hs, hrows⟩ := Prod.mk.injEq .. ▸ Except.ok.inj h
  subst hs hrows
  refine ⟨rfl, by simp [List.length_map], ?_⟩
  intro row hrow e he hnee hlow
  unfold classifyTag
  rw [he]
  simp only [hnee, ite_false, if_neg]
  unfold find_best_context_region
  rcases hb : findBestLoop S row.context (build_context df2 250) none 0 with ⟨_ | b, sc⟩
  · simp only [hb]
  · rw [hb] at hlow
    simp only [hb]
    rw [if_neg (not_le.mpr hlow)]

/-- Witness for C8 at a concrete input: one mapped tag whose only candidate
context shares no character with the source context. -/
theorem C8_below_threshold_missing_audit_complete_witness :
    ([⟨"5-AD", "Z", "-", 0, "Missing"⟩] : List MatchResult) =
        (scanTargets [exTag] "5-AD").map
          (classifyTag fuzzPartialScore (build_map_dict exMapZ) exD2zero
            (build_context exD2zero 250)) ∧
      ([⟨"5-AD", "Z", "-", 0, "Missing"⟩] : List MatchResult).length =
        (⟨1, 0, 0, 1, 0⟩ : Summary).total ∧
      ∀ row ∈ scanTargets [exTag] "5-AD", ∀ e,
        dictGet (build_map_dict exMapZ) row.text = some e → e ≠ "" →
        (findBestLoop fuzzPartialScore row.context (build_context exD2zero 250) none 0).2 < 75 →
        (classifyTag fuzzPartialScore (build_map_dict exMapZ) exD2zero
          (build_context exD2zero 250) row).result = "Missing" :=
  C8_below_threshold_missing_audit_complete fuzzPartialScore exMapZ [exTag] exD2zero "5-AD"
    ⟨1, 0, 0, 1, 0⟩ [⟨"5-AD", "Z", "-", 0, "Missing"⟩] (by rfl)

/-- C10 counterexample: a candidate context region exists yet the reported
confidence of the Missing row is 0, not a value strictly between 0 and the
threshold — with no character overlap every candidate scores 0. -/
theorem C10_counterexample :
    build_context exD2zero 250 ≠ [] ∧
      (verify_drawings_memory fuzzPartialScore exMapZ [exTag] exD2zero "5-AD").toOption.map
        (fun out => out.2.map (fun r => (r.result, r.confidence))) =
        some [("Missing", 0)] :=
  ⟨by decide, by decide⟩

/-- C10 amended: for a mapped scanned tag whose best fuzzy score stays below
the threshold, the classification is Missing and the reported confidence
equals that best score exactly — a value in the interval from 0 (inclusive,
reached when no candidate shares a character) up to the threshold. -/
theorem C10_amended_confidence_is_best_score (S : String → String → ℚ)
    (map_dict : List (String × String)) (df2 : List Frag) (df2_ctx : List CtxFrag)
    (row : CtxFrag) (e : String)
    (he : dictGet map_dict row.text = some e) (hne : e ≠ "")
    (hlow : (findBestLoop S row.context df2_ctx none 0).2 < 75) :
    (classifyTag S map_dict df2 df2_ctx row).result = "Missing" ∧
      (classifyTag S map_dict df2 df2_ctx row).confidence =
        (findBestLoop S row.context df2_ctx none 0).2 := by
  unfold classifyTag
  rw [he]
  simp only [hne, ite_false, if_neg]
  unfold find_best_context_region
  rcases hb : findBestLoop S row.context df2_ctx none 0 with ⟨_ | b, sc⟩
  · exact ⟨rfl, rfl⟩
  · rw [hb] at hlow
    simp only [hb]
    rw [if_neg (not_le.mpr hlow)]
    exact ⟨rfl, rfl⟩

/-- Witness for C10 amended at a concrete input: the Missing row of the
zero-overlap example reports confidence equal to the best loop score. -/
theorem C10_amended_confidence_is_best_score_witness :
    (classifyTag fuzzPartialScore (build_map_dict exMapZ) exD2zero
        (build_context exD2zero 250) ⟨1, "5-AD", "5-AD", 0, 0, 40, 10⟩).result = "Missing" ∧
      (classifyTag fuzzPartialScore (build_map_dict exMapZ) exD2zero
          (build_context exD2zero 250) ⟨1, "5-AD", "5-AD", 0, 0, 40, 10⟩).confidence =
        (findBestLoop fuzzPartialScore "5-AD" (build_context exD2zero 250) none 0).2 :=
  C10_amended_confidence_is_best_score fuzzPartialScore (build_map_dict exMapZ) exD2zero
    (build_context exD2zero 250) ⟨1, "5-AD", "5-AD", 0, 0, 40, 10⟩ "Z"
    (by rfl) (by decide) (by decide)
